import Mathlib

/-!
Shallow embedding of the gh-threads notification-triage core:
the data model (`types.ts`), the decision engine
(`MergedClosedPRFilter`, `RenovatePRFilter`, `CompositeFilter` in
`notification-filters.ts`), the team cache (`TeamCacheManager` in
`cache.ts`) and the orchestrator's team-load stage
(`NotificationProcessor` in `notification-processor.ts`), together
with theorems settling the spec claims.
-/

namespace GhThreads

/-- A user reference as it appears at runtime. The declared
`PullRequestDetails` interface types `user`, `requested_reviewers`
and `assignees` entries as `{ login: string; id: number }` with no
account-type field; the runtime objects come from a cast of the raw
API payload, which may additionally carry a `type` field read by
`RenovatePRFilter`. We model that field as `Option String`: `none`
is JavaScript `undefined`, i.e. the field is absent as in the
declared interface. -/
structure UserRef where
  login : String
  id : Nat
  type : Option String
deriving Repr, DecidableEq

/-- `requested_teams` entries: `{ name: string; id: number }`. -/
structure RequestedTeam where
  name : String
  id : Nat
deriving Repr, DecidableEq

/-- Organization reference inside a `GitHubTeam`. -/
structure OrgRef where
  login : String
  id : Nat
deriving Repr, DecidableEq

/-- `GitHubTeam` from `types.ts`. -/
structure GitHubTeam where
  id : Nat
  name : String
  slug : String
  organization : OrgRef
deriving Repr, DecidableEq

/-- The `subject` field of a `GitHubNotification`. -/
structure Subject where
  title : String
  url : String
  latest_comment_url : String
  type : String
deriving Repr, DecidableEq

/-- `GitHubNotification` from `types.ts` (the fields the decision
engine reads; repository identity and read state are never consulted
by the filters). -/
structure GitHubNotification where
  id : String
  unread : Bool
  reason : String
  subject : Subject
deriving Repr, DecidableEq

/-- `PullRequestDetails` from `types.ts`. `state` is declared as the
union `'open' | 'closed'`; the code compares it with `===` against
the string `"closed"`, so we keep it a `String`. -/
structure PullRequestDetails where
  id : Nat
  number : Nat
  state : String
  merged : Bool
  merged_at : Option String
  closed_at : Option String
  user : UserRef
  requested_reviewers : List UserRef
  requested_teams : List RequestedTeam
  assignees : List UserRef
deriving Repr, DecidableEq

namespace MergedClosedPRFilter

/-- `MergedClosedPRFilter.isDirectReviewer`: the user is in
`requested_reviewers`, or (when the team snapshot accessor yields a
non-null list) some requested team's name equals some user team's
name or slug. A null snapshot (`none`) skips the team check, exactly
as the truthiness test `if (userTeams)` does in the source. -/
def isDirectReviewer (currentUser : String)
    (getUserTeams : Option (List GitHubTeam))
    (prDetails : PullRequestDetails) : Bool :=
  let isRequestedReviewer :=
    prDetails.requested_reviewers.any (fun reviewer => reviewer.login == currentUser)
  if isRequestedReviewer then
    true
  else
    match getUserTeams with
    | some userTeams =>
        prDetails.requested_teams.any (fun requestedTeam =>
          userTeams.any (fun userTeam =>
            userTeam.name == requestedTeam.name ||
            userTeam.slug == requestedTeam.name))
    | none => false

/-- `MergedClosedPRFilter.shouldMarkAsDone`: mirror of the guard
sequence in the source (non-PR kind, missing detail, still open,
direct reviewer, author, assignee each return `false`). -/
def shouldMarkAsDone (currentUser : String)
    (getUserTeams : Option (List GitHubTeam))
    (notification : GitHubNotification)
    (prDetails : Option PullRequestDetails) : Bool :=
  if notification.subject.type != "PullRequest" then
    false
  else
    match prDetails with
    | none => false
    | some pd =>
      let isMergedOrClosed := pd.state == "closed" || pd.merged == true
      if !isMergedOrClosed then
        false
      else if isDirectReviewer currentUser getUserTeams pd then
        false
      else if pd.user.login == currentUser then
        false
      else if pd.assignees.any (fun assignee => assignee.login == currentUser) then
        false
      else
        true

end MergedClosedPRFilter

namespace RenovatePRFilter

/-- `RenovatePRFilter.isDirectReviewer`: only the individual
requested-reviewer check; no team check. -/
def isDirectReviewer (currentUser : String)
    (prDetails : PullRequestDetails) : Bool :=
  prDetails.requested_reviewers.any (fun reviewer => reviewer.login == currentUser)

/-- `RenovatePRFilter.shouldMarkAsDone`: guard sequence of the
source. The bot test reads `prDetails.user.type`, a field absent
from the declared interface (modelled as `Option String`); there is
no open/closed state guard in this rule. The team-snapshot accessor
is captured by the class but never consulted. -/
def shouldMarkAsDone (currentUser : String)
    (_getUserTeams : Option (List GitHubTeam))
    (notification : GitHubNotification)
    (prDetails : Option PullRequestDetails) : Bool :=
  if notification.subject.type != "PullRequest" then
    false
  else
    match prDetails with
    | none => false
    | some pd =>
      let isRenovatePR :=
        pd.user.login == "renovate-sh-app[bot]" && pd.user.type == some "Bot"
      if !isRenovatePR then
        false
      else if isDirectReviewer currentUser pd then
        false
      else if pd.user.login == currentUser then
        false
      else if pd.assignees.any (fun assignee => assignee.login == currentUser) then
        false
      else
        true

end RenovatePRFilter

namespace CompositeFilter

/-- `CompositeFilter.shouldMarkAsDone`: first filter returning true
wins (short-circuit OR over the configured list). -/
def shouldMarkAsDone
    (filters : List (GitHubNotification → Option PullRequestDetails → Bool))
    (notification : GitHubNotification)
    (prDetails : Option PullRequestDetails) : Bool :=
  filters.any (fun f => f notification prDetails)

end CompositeFilter

namespace NotificationProcessor

/-- The composite filter as wired in the `NotificationProcessor`
constructor: `[MergedClosedPRFilter, RenovatePRFilter]`, both closed
over the current user and the deferred team-snapshot accessor. -/
def compositeDecision (currentUser : String)
    (userTeams : Option (List GitHubTeam))
    (notification : GitHubNotification)
    (prDetails : Option PullRequestDetails) : Bool :=
  CompositeFilter.shouldMarkAsDone
    [MergedClosedPRFilter.shouldMarkAsDone currentUser userTeams,
     RenovatePRFilter.shouldMarkAsDone currentUser userTeams]
    notification prDetails

end NotificationProcessor

/-- The persisted cache record of `cache.ts`:
`{ teams, timestamp: epoch-millis, username }`. Timestamps are
JavaScript `Date.now()` millisecond numbers, modelled as `Int`. -/
structure TeamCache where
  teams : List GitHubTeam
  timestamp : Int
  username : String
deriving Repr, DecidableEq

namespace TeamCacheManager

/-- Default TTL: `cacheTTLHours = 24` converted to milliseconds in
the constructor. -/
def defaultCacheTTL : Int := 24 * 60 * 60 * 1000

/-- Body of `TeamCacheManager.getCachedTeams` without its enclosing
try/catch. The file-system read is abstracted: `fileExists` is the
`fs.pathExists` outcome, `readResult` the outcome of `fs.readJson`
(`Except.error` when the file is unreadable or its JSON corrupt —
a JavaScript throw). The guard order is the source's: existence,
read, TTL, then username tag. -/
def getCachedTeamsCore (username : String) (fileExists : Bool)
    (readResult : Except String TeamCache)
    (now : Int) (cacheTTL : Int) :
    Except String (Option (List GitHubTeam)) :=
  if !fileExists then
    .ok none
  else
    match readResult with
    | .error e => .error e
    | .ok cacheData =>
      let cacheAge := now - cacheData.timestamp
      if cacheAge > cacheTTL then
        .ok none
      else if cacheData.username != username then
        .ok none
      else
        .ok (some cacheData.teams)

/-- `TeamCacheManager.getCachedTeams`: the body wrapped in the
source's try/catch, which logs a warning and returns `null` on any
throw. The result type stays `Except` to record that the function
itself never raises to its caller. -/
def getCachedTeams (username : String) (fileExists : Bool)
    (readResult : Except String TeamCache)
    (now : Int) (cacheTTL : Int) :
    Except String (Option (List GitHubTeam)) :=
  match getCachedTeamsCore username fileExists readResult now cacheTTL with
  | .error _ => .ok none
  | .ok v => .ok v

end TeamCacheManager

namespace NotificationProcessor

/-- `NotificationProcessor.loadUserTeams`: when the run has no
snapshot yet (`userTeams === null`), fetch; on fetch failure, log a
warning and continue with an empty snapshot. A snapshot already
loaded is kept unchanged. The function never re-raises. -/
def loadUserTeams (current : Option (List GitHubTeam))
    (fetchResult : Except String (List GitHubTeam)) :
    Option (List GitHubTeam) :=
  match current with
  | some teams => some teams
  | none =>
    match fetchResult with
    | .ok teams => some teams
    | .error _ => some []

/-- `NotificationProcessor.processNotifications`, abstracted over
its I/O: `teamsFetch` is the team-load outcome, `notificationsFetch`
the bulk unread-thread fetch, each thread paired with its
best-effort PR detail (absent on parse or fetch failure). Returns
`(processedCount, markedAsDoneCount)`; only a failed bulk fetch
propagates as an error. -/
def processNotifications (currentUser : String)
    (teamsFetch : Except String (List GitHubTeam))
    (notificationsFetch :
      Except String (List (GitHubNotification × Option PullRequestDetails))) :
    Except String (Nat × Nat) :=
  let userTeams := loadUserTeams none teamsFetch
  match notificationsFetch with
  | .error e => .error e
  | .ok threads =>
    .ok (threads.length,
      (threads.filter (fun t =>
        compositeDecision currentUser userTeams t.1 t.2)).length)

end NotificationProcessor

/-! Concrete sample values used by witnesses and counterexamples. -/

/-- A PullRequest-kind notification subject. -/
def sampleSubject : Subject :=
  { title := "chore(deps): update dependency"
    url := "https://api.github.com/repos/acme/web/pulls/42"
    latest_comment_url := ""
    type := "PullRequest" }

/-- A PullRequest-kind notification. -/
def samplePRNotification : GitHubNotification :=
  { id := "100", unread := true, reason := "review_requested"
    subject := sampleSubject }

/-- An Issue-kind notification. -/
def sampleIssueNotification : GitHubNotification :=
  { id := "101", unread := true, reason := "mention"
    subject := { sampleSubject with type := "Issue" } }

/-- An open, unmerged PR authored by the renovate bot account, with
no requested reviewers, requested teams or assignees. -/
def openRenovatePR : PullRequestDetails :=
  { id := 1, number := 42, state := "open", merged := false
    merged_at := none, closed_at := none
    user := { login := "renovate-sh-app[bot]", id := 7, type := some "Bot" }
    requested_reviewers := [], requested_teams := [], assignees := [] }

/-- A closed, unmerged PR authored by alice, nobody requested or
assigned. -/
def closedAlicePR : PullRequestDetails :=
  { id := 2, number := 43, state := "closed", merged := false
    merged_at := none, closed_at := some "2026-01-01T00:00:00Z"
    user := { login := "alice", id := 1, type := none }
    requested_reviewers := [], requested_teams := [], assignees := [] }

/-- A user team whose slug (but not name) matches the requested
team name used in `teamRequestedPR`. -/
def frontendTeam : GitHubTeam :=
  { id := 3, name := "Frontend Guild", slug := "frontend"
    organization := { login := "acme", id := 9 } }

/-- A closed PR whose review was requested from the team named
"frontend". -/
def teamRequestedPR : PullRequestDetails :=
  { closedAlicePR with
    requested_teams := [{ name := "frontend", id := 11 }] }

/-- A sample cache record tagged for alice, captured at epoch
millisecond 0. -/
def aliceCache : TeamCache :=
  { teams := [frontendTeam], timestamp := 0, username := "alice" }

/-! Theorems settling the claims. -/

/-- C3: for every notification whose subject kind is not
PullRequest, and for every PullRequest-kind notification whose PR
detail is absent, the composite decision returns false (keep),
regardless of user identity or team snapshot. -/
theorem c3_non_pr_or_missing_detail_keeps (u : String)
    (ts : Option (List GitHubTeam)) (n : GitHubNotification)
    (pdo : Option PullRequestDetails)
    (h : n.subject.type ≠ "PullRequest" ∨ pdo = none) :
    NotificationProcessor.compositeDecision u ts n pdo = false := by
  rcases h with h | h
  · simp [NotificationProcessor.compositeDecision,
      CompositeFilter.shouldMarkAsDone,
      MergedClosedPRFilter.shouldMarkAsDone,
      RenovatePRFilter.shouldMarkAsDone, h]
  · subst h
    simp [NotificationProcessor.compositeDecision,
      CompositeFilter.shouldMarkAsDone,
      MergedClosedPRFilter.shouldMarkAsDone,
      RenovatePRFilter.shouldMarkAsDone]

/-- C3 witness: the Issue-kind sample notification and a present
detail, and the PR-kind sample with absent detail, are both kept. -/
theorem c3_non_pr_or_missing_detail_keeps_witness :
    NotificationProcessor.compositeDecision "bob" none
      sampleIssueNotification (some closedAlicePR) = false ∧
    NotificationProcessor.compositeDecision "bob" none
      samplePRNotification none = false :=
  ⟨c3_non_pr_or_missing_detail_keeps "bob" none sampleIssueNotification
      (some closedAlicePR) (Or.inl (by decide)),
   c3_non_pr_or_missing_detail_keeps "bob" none samplePRNotification
      none (Or.inr rfl)⟩

/-- C2: for every PullRequest-kind notification with PR detail
present, the merged/closed rule returns true iff all five hold:
the PR is closed or merged; the user is not a requested individual
reviewer; no user team's name or slug equals any requested team's
name; the user is not the author; the user is not an assignee. -/
theorem c2_merged_closed_rule_iff (u : String)
    (ts : Option (List GitHubTeam)) (n : GitHubNotification)
    (pd : PullRequestDetails) (hk : n.subject.type = "PullRequest") :
    MergedClosedPRFilter.shouldMarkAsDone u ts n (some pd) = true ↔
      (pd.state = "closed" ∨ pd.merged = true) ∧
      (∀ r ∈ pd.requested_reviewers, r.login ≠ u) ∧
      (∀ rt ∈ pd.requested_teams, ∀ ut ∈ ts.getD [],
        ut.name ≠ rt.name ∧ ut.slug ≠ rt.name) ∧
      pd.user.login ≠ u ∧
      (∀ a ∈ pd.assignees, a.login ≠ u) := by
  cases ts with
  | none =>
      simp only [MergedClosedPRFilter.shouldMarkAsDone,
        MergedClosedPRFilter.isDirectReviewer, hk]
      simp [List.any_eq_true, not_or]
  | some userTeams =>
      simp only [MergedClosedPRFilter.shouldMarkAsDone,
        MergedClosedPRFilter.isDirectReviewer, hk]
      simp [List.any_eq_true, not_or]
      tauto

/-- C2 witness: the closed sample PR, a stranger user, and an empty
snapshot satisfy all five conditions and the rule fires. -/
theorem c2_merged_closed_rule_iff_witness :
    MergedClosedPRFilter.shouldMarkAsDone "bob" (some [])
      samplePRNotification (some closedAlicePR) = true :=
  (c2_merged_closed_rule_iff "bob" (some []) samplePRNotification
      closedAlicePR (by decide)).mpr
    (by refine ⟨Or.inl rfl, ?_, ?_, by decide, ?_⟩ <;> simp [closedAlicePR])

/-- C1 counterexample: an open, unmerged renovate-bot PR where the
user (bob) is not a requested reviewer, not the author and not an
assignee. The automated-bot rule returns true (it has no open-state
gate), so the composite decision resolves the thread instead of
keeping it — refuting the claim that both rules return false
regardless of the user's involvement. -/
theorem c1_open_renovate_counterexample :
    openRenovatePR.state = "open" ∧ openRenovatePR.merged = false ∧
    openRenovatePR.user.login = "renovate-sh-app[bot]" ∧
    openRenovatePR.user.type = some "Bot" ∧
    RenovatePRFilter.shouldMarkAsDone "bob" none
      samplePRNotification (some openRenovatePR) = true ∧
    NotificationProcessor.compositeDecision "bob" none
      samplePRNotification (some openRenovatePR) = true := by
  refine ⟨rfl, rfl, rfl, rfl, ?_, ?_⟩ <;> decide

/-- C1 amended: for an open (merged false) PR authored by the
recognized bot identity, the merged/closed rule does return false,
but the automated-bot rule does not gate on PR state: the composite
decision returns true exactly when the user is not a requested
individual reviewer, not the author and not an assignee, so the
thread is kept only when the user is so involved. -/
theorem c1_open_renovate_amended (u : String)
    (ts : Option (List GitHubTeam)) (n : GitHubNotification)
    (pd : PullRequestDetails)
    (hk : n.subject.type = "PullRequest")
    (hl : pd.user.login = "renovate-sh-app[bot]")
    (ht : pd.user.type = some "Bot")
    (hs : pd.state = "open") (hm : pd.merged = false) :
    MergedClosedPRFilter.shouldMarkAsDone u ts n (some pd) = false ∧
    (NotificationProcessor.compositeDecision u ts n (some pd) = true ↔
      (∀ r ∈ pd.requested_reviewers, r.login ≠ u) ∧
      pd.user.login ≠ u ∧
      (∀ a ∈ pd.assignees, a.login ≠ u)) := by
  have hmc : MergedClosedPRFilter.shouldMarkAsDone u ts n (some pd) = false := by
    simp [MergedClosedPRFilter.shouldMarkAsDone, hk, hs, hm]
  refine ⟨hmc, ?_⟩
  simp only [NotificationProcessor.compositeDecision,
    CompositeFilter.shouldMarkAsDone, List.any_cons, List.any_nil, hmc,
    Bool.false_or, Bool.or_false]
  simp only [RenovatePRFilter.shouldMarkAsDone,
    RenovatePRFilter.isDirectReviewer, hk, hl, ht]
  simp [List.any_eq_true]

/-- C1 amended witness: with bob uninvolved in the open renovate
PR, the composite decision resolves the thread. -/
theorem c1_open_renovate_amended_witness :
    MergedClosedPRFilter.shouldMarkAsDone "bob" none
      samplePRNotification (some openRenovatePR) = false ∧
    NotificationProcessor.compositeDecision "bob" none
      samplePRNotification (some openRenovatePR) = true := by
  have h := c1_open_renovate_amended "bob" none samplePRNotification
    openRenovatePR rfl rfl rfl rfl rfl
  exact ⟨h.1, h.2.mpr (by simp [openRenovatePR])⟩

/-- C4: on every input typed by the repository's own declared
interfaces — where the author record carries no account-type field,
modelled as `user.type = none` — the bot-identity test cannot hold
and the automated-bot rule returns false. -/
theorem c4_declared_interface_never_bot (u : String)
    (ts : Option (List GitHubTeam)) (n : GitHubNotification)
    (pdo : Option PullRequestDetails)
    (h : ∀ pd, pdo = some pd → pd.user.type = none) :
    RenovatePRFilter.shouldMarkAsDone u ts n pdo = false := by
  cases pdo with
  | none =>
      simp [RenovatePRFilter.shouldMarkAsDone]
  | some pd =>
      have ht := h pd rfl
      simp [RenovatePRFilter.shouldMarkAsDone, ht]

/-- C4 witness: stripping the runtime account-type field from the
renovate PR (as the declared interface types it) makes the
automated-bot rule abstain even on an otherwise matching input. -/
theorem c4_declared_interface_never_bot_witness :
    RenovatePRFilter.shouldMarkAsDone "bob" none samplePRNotification
      (some { openRenovatePR with
        user := { login := "renovate-sh-app[bot]", id := 7, type := none } })
      = false :=
  c4_declared_interface_never_bot "bob" none samplePRNotification
    (some { openRenovatePR with
      user := { login := "renovate-sh-app[bot]", id := 7, type := none } })
    (fun pd hpd => by cases hpd; rfl)

/-- C5: when the PR author is the recognized bot identity and the
user is not a requested individual reviewer, not the author and not
an assignee, the automated-bot rule returns true for every team
snapshot — in particular when some user team matches a requested
team — because the team-requested-reviewer check is not applied by
this rule. -/
theorem c5_renovate_rule_ignores_teams (u : String)
    (ts : Option (List GitHubTeam)) (n : GitHubNotification)
    (pd : PullRequestDetails)
    (hk : n.subject.type = "PullRequest")
    (hl : pd.user.login = "renovate-sh-app[bot]")
    (ht : pd.user.type = some "Bot")
    (h2 : ∀ r ∈ pd.requested_reviewers, r.login ≠ u)
    (h4 : pd.user.login ≠ u)
    (h5 : ∀ a ∈ pd.assignees, a.login ≠ u) :
    RenovatePRFilter.shouldMarkAsDone u ts n (some pd) = true := by
  rw [hl] at h4
  simp only [RenovatePRFilter.shouldMarkAsDone,
    RenovatePRFilter.isDirectReviewer, hk, hl, ht]
  simp [List.any_eq_true]
  tauto

/-- C5 witness: a renovate PR requesting review from the "frontend"
team, while bob's snapshot contains a team with slug "frontend":
the rule still fires. -/
theorem c5_renovate_rule_ignores_teams_witness :
    RenovatePRFilter.shouldMarkAsDone "bob" (some [frontendTeam])
      samplePRNotification
      (some { openRenovatePR with
        requested_teams := [{ name := "frontend", id := 11 }] }) = true :=
  c5_renovate_rule_ignores_teams "bob" (some [frontendTeam])
    samplePRNotification
    { openRenovatePR with requested_teams := [{ name := "frontend", id := 11 }] }
    rfl rfl rfl (by simp [openRenovatePR]) (by decide) (by simp [openRenovatePR])

/-- C6: with a non-null snapshot, the merged/closed rule's
direct-reviewer test is characterized as a union match: it holds iff
the user is a requested individual reviewer, or some requested
team's name equals some user team's name or slug (case-sensitive
string equality); and a match on either field alone suffices. -/
theorem c6_team_match_union (u : String) (ts : List GitHubTeam)
    (pd : PullRequestDetails) :
    (MergedClosedPRFilter.isDirectReviewer u (some ts) pd = true ↔
      (∃ r ∈ pd.requested_reviewers, r.login = u) ∨
      ∃ rt ∈ pd.requested_teams, ∃ ut ∈ ts,
        ut.name = rt.name ∨ ut.slug = rt.name) ∧
    (∀ ut ∈ ts, ∀ rt ∈ pd.requested_teams,
      (ut.name = rt.name ∨ ut.slug = rt.name) →
      MergedClosedPRFilter.isDirectReviewer u (some ts) pd = true) := by
  have hiff : MergedClosedPRFilter.isDirectReviewer u (some ts) pd = true ↔
      (∃ r ∈ pd.requested_reviewers, r.login = u) ∨
      ∃ rt ∈ pd.requested_teams, ∃ ut ∈ ts,
        ut.name = rt.name ∨ ut.slug = rt.name := by
    simp [MergedClosedPRFilter.isDirectReviewer, List.any_eq_true]
  exact ⟨hiff, fun ut hut rt hrt hmatch =>
    hiff.mpr (Or.inr ⟨rt, hrt, ut, hut, hmatch⟩)⟩

/-- C6 witness: a slug-only match (team name "Frontend Guild", slug
"frontend", requested team name "frontend") makes bob a team-based
reviewer of the sample PR. -/
theorem c6_team_match_union_witness :
    MergedClosedPRFilter.isDirectReviewer "bob" (some [frontendTeam])
      teamRequestedPR = true :=
  (c6_team_match_union "bob" [frontendTeam] teamRequestedPR).2
    frontendTeam (by decide) { name := "frontend", id := 11 } (by decide)
    (Or.inr rfl)

/-- C7: for a readable cache record whose tagged username matches
the query, get returns the snapshot when now − timestamp ≤ ttl
(inclusive at the boundary) and absent when now − timestamp > ttl. -/
theorem c7_cache_ttl_boundary (u : String) (c : TeamCache)
    (now ttl : Int) (hu : c.username = u) :
    (now - c.timestamp ≤ ttl →
      TeamCacheManager.getCachedTeams u true (.ok c) now ttl =
        .ok (some c.teams)) ∧
    (now - c.timestamp > ttl →
      TeamCacheManager.getCachedTeams u true (.ok c) now ttl = .ok none) := by
  constructor
  · intro hle
    simp [TeamCacheManager.getCachedTeams,
      TeamCacheManager.getCachedTeamsCore, hu, not_lt.mpr hle]
  · intro hgt
    simp [TeamCacheManager.getCachedTeams,
      TeamCacheManager.getCachedTeamsCore, hgt]

/-- C7 witness: a record captured at time 0 queried at exactly the
default ttl is returned; queried one millisecond later it is not. -/
theorem c7_cache_ttl_boundary_witness :
    TeamCacheManager.getCachedTeams "alice" true (.ok aliceCache)
      TeamCacheManager.defaultCacheTTL TeamCacheManager.defaultCacheTTL =
      .ok (some aliceCache.teams) ∧
    TeamCacheManager.getCachedTeams "alice" true (.ok aliceCache)
      (TeamCacheManager.defaultCacheTTL + 1) TeamCacheManager.defaultCacheTTL =
      .ok none :=
  ⟨(c7_cache_ttl_boundary "alice" aliceCache
      TeamCacheManager.defaultCacheTTL TeamCacheManager.defaultCacheTTL
      rfl).1 (by decide),
   (c7_cache_ttl_boundary "alice" aliceCache
      (TeamCacheManager.defaultCacheTTL + 1) TeamCacheManager.defaultCacheTTL
      rfl).2 (by decide)⟩

/-- C8: a readable cache record whose tagged username differs from
the query username yields absent, at every timestamp — fresh or
stale. -/
theorem c8_cache_username_mismatch (u : String) (c : TeamCache)
    (now ttl : Int) (hu : c.username ≠ u) :
    TeamCacheManager.getCachedTeams u true (.ok c) now ttl = .ok none := by
  rcases Decidable.em (now - c.timestamp > ttl) with hgt | hle
  · simp [TeamCacheManager.getCachedTeams,
      TeamCacheManager.getCachedTeamsCore, hgt]
  · simp [TeamCacheManager.getCachedTeams,
      TeamCacheManager.getCachedTeamsCore, hu, hle]

/-- C8 witness: alice's fresh record queried for bob is a miss. -/
theorem c8_cache_username_mismatch_witness :
    TeamCacheManager.getCachedTeams "bob" true (.ok aliceCache) 0
      TeamCacheManager.defaultCacheTTL = .ok none :=
  c8_cache_username_mismatch "bob" aliceCache 0
    TeamCacheManager.defaultCacheTTL (by decide)

/-- C9: cache get never raises to the caller: every input produces
an ok result, and a missing file or a failed read (unreadable or
corrupt record) each produce absent. -/
theorem c9_cache_get_total (u : String) (fileExists : Bool)
    (readResult : Except String TeamCache) (now ttl : Int) :
    (∃ r, TeamCacheManager.getCachedTeams u fileExists readResult now ttl =
      .ok r) ∧
    (fileExists = false →
      TeamCacheManager.getCachedTeams u fileExists readResult now ttl =
        .ok none) ∧
    (∀ e, readResult = .error e →
      TeamCacheManager.getCachedTeams u fileExists readResult now ttl =
        .ok none) := by
  refine ⟨?_, ?_, ?_⟩
  · unfold TeamCacheManager.getCachedTeams
    cases TeamCacheManager.getCachedTeamsCore u fileExists readResult now ttl with
    | error e => exact ⟨none, rfl⟩
    | ok v => exact ⟨v, rfl⟩
  · intro hf
    subst hf
    simp [TeamCacheManager.getCachedTeams, TeamCacheManager.getCachedTeamsCore]
  · intro e he
    subst he
    cases fileExists <;>
      simp [TeamCacheManager.getCachedTeams, TeamCacheManager.getCachedTeamsCore]

/-- C9 witness: a missing file and a corrupt record both come back
as a plain miss. -/
theorem c9_cache_get_total_witness :
    TeamCacheManager.getCachedTeams "alice" false (.ok aliceCache) 0
      TeamCacheManager.defaultCacheTTL = .ok none ∧
    TeamCacheManager.getCachedTeams "alice" true (.error "bad json") 0
      TeamCacheManager.defaultCacheTTL = .ok none :=
  ⟨(c9_cache_get_total "alice" false (.ok aliceCache) 0
      TeamCacheManager.defaultCacheTTL).2.1 rfl,
   (c9_cache_get_total "alice" true (.error "bad json") 0
      TeamCacheManager.defaultCacheTTL).2.2 "bad json" rfl⟩

/-- C10: a failed team fetch does not abort the run: the team-load
stage degrades to an empty snapshot, the run proceeds exactly as a
run whose fetch returned no teams, and with a successful bulk fetch
it still reports counts for every thread. -/
theorem c10_team_load_failure_degrades (u : String) (e : String)
    (nf : Except String (List (GitHubNotification × Option PullRequestDetails))) :
    NotificationProcessor.loadUserTeams none (.error e) = some [] ∧
    NotificationProcessor.processNotifications u (.error e) nf =
      NotificationProcessor.processNotifications u (.ok []) nf ∧
    (∀ threads, nf = .ok threads →
      ∃ marked, NotificationProcessor.processNotifications u (.error e) nf =
        .ok (threads.length, marked)) := by
  refine ⟨rfl, rfl, ?_⟩
  intro threads ht
  subst ht
  exact ⟨_, rfl⟩

/-- C10 witness: with a failed fetch and one open renovate thread,
the run completes, processing one thread and resolving it. -/
theorem c10_team_load_failure_degrades_witness :
    ∃ marked, NotificationProcessor.processNotifications "bob" (.error "boom")
      (.ok [(samplePRNotification, some openRenovatePR)]) = .ok (1, marked) :=
  (c10_team_load_failure_degrades "bob" "boom"
    (.ok [(samplePRNotification, some openRenovatePR)])).2.2
    [(samplePRNotification, some openRenovatePR)] rfl

end GhThreads
